import Mathlib

/-!
# Verification of the terminal text-editor core (src/src/index.js)

Shallow embedding of the editor's complete variant: the `Editor` state
(columns, rows, cursorX, cursorY), the key decoder `readKey`, the cursor
state machine `editorMoveCursor`, the keypress dispatcher
`processKeypress`, and the frame renderer (`drawRows` / `refreshScreenFrame`).
JavaScript numbers are embedded as `Int` (all arithmetic in the source is
integer arithmetic except the banner padding, which is tracked in half
units, see `spacesAux`). Side effects (writes, `process.exit`, raw-mode
switching) are embedded as explicit `Effect` traces.
-/

/-- The editor state: the fields of the JS `Editor` class that the
core mutates (`columns`, `rows`, `cursorX`, `cursorY`). -/
structure Editor where
  columns : Int
  rows : Int
  cursorX : Int
  cursorY : Int
  deriving DecidableEq, Repr

/-- `welcomeMsg` field of the JS `Editor` class. -/
def welcomeMsg : String := "Kilo editor in node.js - version 0.0.0"

namespace EDITOR_KEY

/-- JS `EDITOR_KEY.ARROW_UP`. -/
def ARROW_UP : String := "w"

/-- JS `EDITOR_KEY.ARROW_DOWN`. -/
def ARROW_DOWN : String := "s"

/-- JS `EDITOR_KEY.ARROW_LEFT`. -/
def ARROW_LEFT : String := "a"

/-- JS `EDITOR_KEY.ARROW_RIGHT`. -/
def ARROW_RIGHT : String := "d"

/-- JS `EDITOR_KEY.PAGE_UP`. -/
def PAGE_UP : String := "\x1B[5~"

/-- JS `EDITOR_KEY.PAGE_DOWN`. -/
def PAGE_DOWN : String := "\x1B[6~"

end EDITOR_KEY

/-- A terminal keypress event as delivered to the `keypress` handler
(the shape documented on `#readKey`). -/
structure KeyEvent where
  sequence : String
  name : String
  ctrl : Bool
  meta : Bool
  shift : Bool
  deriving DecidableEq, Repr

/-- JS `#readKey`: maps the four arrow escape sequences to the
`EDITOR_KEY` letters and passes every other sequence through unchanged. -/
def readKey (key : KeyEvent) : String :=
  if key.sequence = "\x1B[B" then EDITOR_KEY.ARROW_DOWN
  else if key.sequence = "\x1B[A" then EDITOR_KEY.ARROW_UP
  else if key.sequence = "\x1B[C" then EDITOR_KEY.ARROW_RIGHT
  else if key.sequence = "\x1B[D" then EDITOR_KEY.ARROW_LEFT
  else key.sequence

/-- JS `#editorMoveCursor`: the cursor state machine, a switch over the
decoded key with silent clamping. -/
def editorMoveCursor (key : String) (st : Editor) : Editor :=
  if key = EDITOR_KEY.ARROW_LEFT then
    (if 0 < st.cursorX then { st with cursorX := st.cursorX - 1 } else st)
  else if key = EDITOR_KEY.ARROW_RIGHT then
    (if st.cursorX < st.columns - 1 then { st with cursorX := st.cursorX + 1 } else st)
  else if key = EDITOR_KEY.ARROW_UP then
    (if 0 < st.cursorY then { st with cursorY := st.cursorY - 1 } else st)
  else if key = EDITOR_KEY.ARROW_DOWN then
    (if st.cursorY < st.rows - 1 then { st with cursorY := st.cursorY + 1 } else st)
  else if key = EDITOR_KEY.PAGE_UP then
    { st with cursorY := 0 }
  else if key = EDITOR_KEY.PAGE_DOWN then
    { st with cursorY := st.rows }
  else st

/-- Applying a finite sequence of decoded keys to the cursor state
machine, left to right. -/
def applyKeys (keys : List String) (st : Editor) : Editor :=
  keys.foldl (fun s k => editorMoveCursor k s) st

/-- The state the editor starts in after measuring the window:
cursor at (0,0) (field initializers of the JS `Editor` class). -/
def initState (C R : Int) : Editor :=
  { columns := C, rows := R, cursorX := 0, cursorY := 0 }

/-- Invariant carried through every movement: extents unchanged, the
cursor column stays in `[0, C-1]` and the cursor row in `[0, R]`. -/
def InvCR (C R : Int) (st : Editor) : Prop :=
  st.columns = C ∧ st.rows = R ∧
  0 ≤ st.cursorX ∧ st.cursorX ≤ C - 1 ∧
  0 ≤ st.cursorY ∧ st.cursorY ≤ R

/-- Row invariant: rows unchanged, 0 ≤ cursorY ≤ R (holds for any
columns value, including unmeasured ones). -/
def InvY (R : Int) (st : Editor) : Prop :=
  st.rows = R ∧ 0 ≤ st.cursorY ∧ st.cursorY ≤ R

/-- C1 counterexample input: the state reached from (0,0) by PageDown
with rows = 3 (so cursorY = 3). -/
def c1State : Editor := { columns := 5, rows := 3, cursorX := 0, cursorY := 3 }

/-- The while loop `while (padding-- > 0) appendBuffer += ' '` of
`#drawRows`. JS `padding` may be half-integral (real division by 2), so
it is tracked in half units: the argument is `2 * padding` and each
iteration emits one space and subtracts 2. -/
def spacesAux : Nat → String
  | 0 => ""
  | 1 => " "
  | n + 2 => " " ++ spacesAux n

/-- The same loop entered with `2 * padding` as an `Int` (the loop body
runs only while the value is positive). -/
def spacesLoop (p2 : Int) : String := spacesAux p2.toNat

/-- The welcome-banner branch of `#drawRows`: `padding = (columns -
welcomeMsg.length) / 2` (JS real division, so here `p2 = 2 * padding`);
if `padding > 0` one filler tilde is emitted and `padding` decremented,
then the space loop runs, then the banner text is appended untruncated. -/
def bannerStr (st : Editor) : String :=
  let p2 : Int := st.columns - (welcomeMsg.length : Int)
  if 0 < p2 then "~" ++ spacesLoop (p2 - 2) ++ welcomeMsg
  else spacesLoop p2 ++ welcomeMsg

/-- Visible text of viewport row `y` in `#drawRows`: the banner on row
`Math.floor(rows / 3)` (floor division; `Int` division by the positive
constant 3 is floor division), a tilde on every other row. -/
def rowText (st : Editor) (y : Nat) : String :=
  if (y : Int) = st.rows / 3 then bannerStr st else "~"

/-- One iteration of the `#drawRows` loop: row text, "clear to end of
line", and CRLF on every row but the last. -/
def rowChunk (st : Editor) (y : Nat) : String :=
  rowText st y ++ "\x1b[K" ++ (if (y : Int) < st.rows - 1 then "\r\n" else "")

/-- The text the `#drawRows` loop appends: one chunk per `y` in
`[0, rows)`. -/
def drawRowsContent (st : Editor) : String :=
  ((List.range st.rows.toNat).map (rowChunk st)).foldl (fun a b => a ++ b) ""

/-- JS `#drawRows`: receives the caller's accumulator as its
`appendBuffer` parameter and returns it with the row chunks appended. -/
def drawRows (st : Editor) (appendBuffer : String) : String :=
  appendBuffer ++ drawRowsContent st

/-- JS `#refreshScreen`'s composed frame: hide cursor, home, then
`appendBuffer += this.#drawRows(appendBuffer)` (the accumulator is both
passed in and appended to, so its prefix is duplicated), then the
1-based cursor-position sequence and show cursor. -/
def refreshScreenFrame (st : Editor) : String :=
  let a1 := "" ++ "\x1b[?25l" ++ "\x1b[H"
  let a2 := a1 ++ drawRows st a1
  a2 ++ ("\x1b[" ++ toString (st.cursorY + 1) ++ ";" ++ toString (st.cursorX + 1) ++ "H")
    ++ "\x1b[?25h"

/-- Observable side effects of the editor process. -/
inductive Effect where
  | write (s : String)
  | exit (code : Nat)
  | setRawMode (b : Bool)
  deriving DecidableEq, Repr

/-- JS `#refreshScreen` performs exactly one write of the composed
frame. -/
def refreshScreenEffects (st : Editor) : List Effect :=
  [Effect.write (refreshScreenFrame st)]

/-- JS `#die`: one final refresh, then `process.exit()` (default exit
code 0); nothing else — in particular raw mode is never switched back
off. -/
def dieEffects (st : Editor) : List Effect :=
  refreshScreenEffects st ++ [Effect.exit 0]

/-- The `keypress` handler `#editorProcessKeypress`: decode via
`#readKey`; on 0x11 call `#die` (`process.exit` stops execution before
the trailing refresh); on the six movement keys move the cursor; ignore
anything else; every non-terminating path ends with one refresh. -/
def processKeypress (key : KeyEvent) (st : Editor) : Editor × List Effect :=
  let s := readKey key
  if s = "\x11" then
    (st, dieEffects st)
  else if s = EDITOR_KEY.ARROW_UP ∨ s = EDITOR_KEY.ARROW_DOWN ∨
      s = EDITOR_KEY.ARROW_LEFT ∨ s = EDITOR_KEY.ARROW_RIGHT ∨
      s = EDITOR_KEY.PAGE_UP ∨ s = EDITOR_KEY.PAGE_DOWN then
    (editorMoveCursor s st, refreshScreenEffects (editorMoveCursor s st))
  else
    (st, refreshScreenEffects st)

/-- Recognizer for write effects. -/
def isWrite : Effect → Bool
  | Effect.write _ => true
  | _ => false

/-- The spec's closed vocabulary of logical keys (§3). -/
inductive LogicalKey where
  | moveUp
  | moveDown
  | moveLeft
  | moveRight
  | pageUp
  | pageDown
  | home
  | endKey
  | delete
  | quit
  | other (raw : String)
  deriving DecidableEq, Repr

/-- The logical key the running code assigns to a raw sequence: the
composition of `#readKey` with the dispatch switch of
`#editorProcessKeypress` (quit, the six movement keys, or ignored,
i.e. `other` carrying the raw sequence). -/
def codeLogicalKey (seq : String) : LogicalKey :=
  let s := readKey { sequence := seq, name := "", ctrl := false, meta := false, shift := false }
  if s = "\x11" then LogicalKey.quit
  else if s = EDITOR_KEY.ARROW_UP then LogicalKey.moveUp
  else if s = EDITOR_KEY.ARROW_DOWN then LogicalKey.moveDown
  else if s = EDITOR_KEY.ARROW_LEFT then LogicalKey.moveLeft
  else if s = EDITOR_KEY.ARROW_RIGHT then LogicalKey.moveRight
  else if s = EDITOR_KEY.PAGE_UP then LogicalKey.pageUp
  else if s = EDITOR_KEY.PAGE_DOWN then LogicalKey.pageDown
  else LogicalKey.other seq

/-- Modelled from the spec: the decode table of §4.2 in its documented
precedence order. The Home/End/Delete rows and the closed `LogicalKey`
vocabulary are absent from src; this definition follows the spec's words
and is compared against the code's behavior. -/
def decodeSpec (seq : String) : LogicalKey :=
  if seq = "\x1B[A" then LogicalKey.moveUp
  else if seq = "\x1B[B" then LogicalKey.moveDown
  else if seq = "\x1B[C" then LogicalKey.moveRight
  else if seq = "\x1B[D" then LogicalKey.moveLeft
  else if seq = "\x1B[5~" then LogicalKey.pageUp
  else if seq = "\x1B[6~" then LogicalKey.pageDown
  else if seq = "\x1B[H" ∨ seq = "\x1B[1~" ∨ seq = "\x1B[7~" ∨ seq = "\x1BOH" then
    LogicalKey.home
  else if seq = "\x1B[4~" ∨ seq = "\x1B[8~" ∨ seq = "\x1B[F" ∨ seq = "\x1BOF" then
    LogicalKey.endKey
  else if seq = "\x1B[3~" then LogicalKey.delete
  else if seq = "w" then LogicalKey.moveUp
  else if seq = "s" then LogicalKey.moveDown
  else if seq = "a" then LogicalKey.moveLeft
  else if seq = "d" then LogicalKey.moveRight
  else if seq = "\x11" then LogicalKey.quit
  else LogicalKey.other seq

/-- All raw sequences the dispatch pipeline treats specially (arrow
escapes, the wasd letters they decode to, PageUp/PageDown, quit). -/
def handledSeqs : List String :=
  ["\x1B[A", "\x1B[B", "\x1B[C", "\x1B[D", "w", "s", "a", "d",
    "\x1B[5~", "\x1B[6~", "\x11"]

/-- Modelled from the spec: the content-line branch of the renderer
(§4.4 step 3) — the repository's LineBuffer-aware renderer variant is
not in src. If `y < len(LineBuffer)` the content line at index `y` is
emitted as-is; otherwise, with an empty buffer, the banner row or filler
as in `#drawRows`. -/
def rowTextWithLines (lines : List String) (st : Editor) (y : Nat) : String :=
  if h : y < lines.length then lines.get ⟨y, h⟩
  else if lines = [] ∧ (y : Int) = st.rows / 3 then bannerStr st
  else "~"

/-- Modelled from the spec: the startup file-loading collaborator (§6) —
absent from src. An absent path argument means an empty buffer; with a
path, only the first line produced by the collaborator is consumed. -/
def initLineBuffer : Option String → List String → List String
  | none, _ => []
  | some _, produced => produced.take 1

/-- A keypress event carrying the quit control code 0x11. -/
def quitEvent : KeyEvent :=
  { sequence := "\x11", name := "", ctrl := false, meta := false, shift := false }

/-- A concrete 1-column, 1-row session used to evaluate whole frames. -/
def tinyState : Editor := { columns := 1, rows := 1, cursorX := 0, cursorY := 0 }

/-- A 10-column, 3-row session: the banner is wider than the viewport. -/
def narrowState : Editor := { columns := 10, rows := 3, cursorX := 0, cursorY := 0 }

/-- A 5-column session with the cursor at x = 3. -/
def midState : Editor := { columns := 5, rows := 1, cursorX := 3, cursorY := 0 }

lemma editorMoveCursor_preserves (C R : Int) (st : Editor) (k : String)
    (h : InvCR C R st) : InvCR C R (editorMoveCursor k st) := by
  obtain ⟨hc, hr, hx0, hx1, hy0, hy1⟩ := h
  unfold editorMoveCursor InvCR
  split_ifs <;> refine ⟨?_, ?_, ?_, ?_, ?_, ?_⟩ <;> simp_all <;> omega

lemma editorMoveCursor_preservesY (R : Int) (st : Editor) (k : String)
    (h : InvY R st) : InvY R (editorMoveCursor k st) := by
  obtain ⟨hr, hy0, hy1⟩ := h
  unfold editorMoveCursor InvY
  split_ifs <;> refine ⟨?_, ?_, ?_⟩ <;> simp_all <;> omega

lemma applyKeys_inv {P : Editor → Prop}
    (hstep : ∀ st k, P st → P (editorMoveCursor k st)) :
    ∀ (keys : List String) (st : Editor), P st → P (applyKeys keys st) := by
  intro keys
  induction keys with
  | nil => intro st h; exact h
  | cons k ks ih =>
      intro st h
      exact ih (editorMoveCursor k st) (hstep st k h)

/-- C1: the claim quantifies over every starting CursorPosition, but from
cursorY = rows (reachable via PageDown) a MoveDown leaves the row
unchanged instead of clamping it to rows - 1 = min(y+1, rows-1). -/
theorem moveDown_not_min_clamp :
    (editorMoveCursor EDITOR_KEY.ARROW_DOWN c1State).cursorY = 3 ∧
    ((3 : Int) ≠ min ((3 : Int) + 1) ((3 : Int) - 1)) := by
  constructor
  · rfl
  · decide

/-- C1 (amended): restricted to in-range starting positions
(0 ≤ x ≤ columns-1, 0 ≤ y ≤ rows-1), every movement satisfies the
spec's postcondition, with the other coordinate unchanged: MoveLeft
gives x = max(x-1,0), MoveRight gives x = min(x+1,columns-1), MoveUp
gives y = max(y-1,0), MoveDown gives y = min(y+1,rows-1), PageUp gives
y = 0 and PageDown gives y = rows. -/
theorem editorMoveCursor_postconditions (st : Editor)
    (hx0 : 0 ≤ st.cursorX) (hy0 : 0 ≤ st.cursorY)
    (hx1 : st.cursorX ≤ st.columns - 1) (hy1 : st.cursorY ≤ st.rows - 1) :
    ((editorMoveCursor EDITOR_KEY.ARROW_LEFT st).cursorX = max (st.cursorX - 1) 0 ∧
      (editorMoveCursor EDITOR_KEY.ARROW_LEFT st).cursorY = st.cursorY) ∧
    ((editorMoveCursor EDITOR_KEY.ARROW_RIGHT st).cursorX
        = min (st.cursorX + 1) (st.columns - 1) ∧
      (editorMoveCursor EDITOR_KEY.ARROW_RIGHT st).cursorY = st.cursorY) ∧
    ((editorMoveCursor EDITOR_KEY.ARROW_UP st).cursorY = max (st.cursorY - 1) 0 ∧
      (editorMoveCursor EDITOR_KEY.ARROW_UP st).cursorX = st.cursorX) ∧
    ((editorMoveCursor EDITOR_KEY.ARROW_DOWN st).cursorY
        = min (st.cursorY + 1) (st.rows - 1) ∧
      (editorMoveCursor EDITOR_KEY.ARROW_DOWN st).cursorX = st.cursorX) ∧
    ((editorMoveCursor EDITOR_KEY.PAGE_UP st).cursorY = 0 ∧
      (editorMoveCursor EDITOR_KEY.PAGE_UP st).cursorX = st.cursorX) ∧
    ((editorMoveCursor EDITOR_KEY.PAGE_DOWN st).cursorY = st.rows ∧
      (editorMoveCursor EDITOR_KEY.PAGE_DOWN st).cursorX = st.cursorX) := by
  have hl : editorMoveCursor EDITOR_KEY.ARROW_LEFT st
      = (if 0 < st.cursorX then { st with cursorX := st.cursorX - 1 } else st) := rfl
  have hr : editorMoveCursor EDITOR_KEY.ARROW_RIGHT st
      = (if st.cursorX < st.columns - 1 then
          { st with cursorX := st.cursorX + 1 } else st) := rfl
  have hu : editorMoveCursor EDITOR_KEY.ARROW_UP st
      = (if 0 < st.cursorY then { st with cursorY := st.cursorY - 1 } else st) := rfl
  have hd : editorMoveCursor EDITOR_KEY.ARROW_DOWN st
      = (if st.cursorY < st.rows - 1 then
          { st with cursorY := st.cursorY + 1 } else st) := rfl
  refine ⟨⟨?_, ?_⟩, ⟨?_, ?_⟩, ⟨?_, ?_⟩, ⟨?_, ?_⟩, ⟨rfl, rfl⟩, ⟨rfl, rfl⟩⟩
  · rw [hl]; split_ifs <;> ((try dsimp only); (try omega))
  · rw [hl]; split_ifs <;> ((try dsimp only); (try omega))
  · rw [hr]; split_ifs <;> ((try dsimp only); (try omega))
  · rw [hr]; split_ifs <;> ((try dsimp only); (try omega))
  · rw [hu]; split_ifs <;> ((try dsimp only); (try omega))
  · rw [hu]; split_ifs <;> ((try dsimp only); (try omega))
  · rw [hd]; split_ifs <;> ((try dsimp only); (try omega))
  · rw [hd]; split_ifs <;> ((try dsimp only); (try omega))

/-- C1 amended, witnessed at the concrete in-range state
(columns 5, rows 4, cursor (2,3)). -/
theorem editorMoveCursor_postconditions_witness :
    ((0 : Int) ≤ 2 ∧ (0 : Int) ≤ 3 ∧ (2 : Int) ≤ 5 - 1 ∧ (3 : Int) ≤ 4 - 1) ∧
    ((editorMoveCursor EDITOR_KEY.ARROW_LEFT ⟨5, 4, 2, 3⟩).cursorX = max (2 - 1) 0 ∧
      (editorMoveCursor EDITOR_KEY.ARROW_LEFT ⟨5, 4, 2, 3⟩).cursorY = 3) ∧
    ((editorMoveCursor EDITOR_KEY.ARROW_RIGHT ⟨5, 4, 2, 3⟩).cursorX = min (2 + 1) (5 - 1) ∧
      (editorMoveCursor EDITOR_KEY.ARROW_RIGHT ⟨5, 4, 2, 3⟩).cursorY = 3) ∧
    ((editorMoveCursor EDITOR_KEY.ARROW_UP ⟨5, 4, 2, 3⟩).cursorY = max (3 - 1) 0 ∧
      (editorMoveCursor EDITOR_KEY.ARROW_UP ⟨5, 4, 2, 3⟩).cursorX = 2) ∧
    ((editorMoveCursor EDITOR_KEY.ARROW_DOWN ⟨5, 4, 2, 3⟩).cursorY = min (3 + 1) (4 - 1) ∧
      (editorMoveCursor EDITOR_KEY.ARROW_DOWN ⟨5, 4, 2, 3⟩).cursorX = 2) ∧
    ((editorMoveCursor EDITOR_KEY.PAGE_UP ⟨5, 4, 2, 3⟩).cursorY = 0 ∧
      (editorMoveCursor EDITOR_KEY.PAGE_UP ⟨5, 4, 2, 3⟩).cursorX = 2) ∧
    ((editorMoveCursor EDITOR_KEY.PAGE_DOWN ⟨5, 4, 2, 3⟩).cursorY = 4 ∧
      (editorMoveCursor EDITOR_KEY.PAGE_DOWN ⟨5, 4, 2, 3⟩).cursorX = 2) :=
  ⟨by decide,
    editorMoveCursor_postconditions ⟨5, 4, 2, 3⟩
      (by decide) (by decide) (by decide) (by decide)⟩

/-- C3: with columns = C ≥ 1 and rows = R ≥ 1, after any finite sequence
of movement applications starting from the initial cursor (0,0), the
resulting position satisfies 0 ≤ x ≤ C-1 and 0 ≤ y. -/
theorem cursor_stays_in_bounds (C R : Int) (hC : 1 ≤ C) (hR : 1 ≤ R)
    (keys : List String) :
    0 ≤ (applyKeys keys (initState C R)).cursorX ∧
    (applyKeys keys (initState C R)).cursorX ≤ C - 1 ∧
    0 ≤ (applyKeys keys (initState C R)).cursorY := by
  have hinit : InvCR C R (initState C R) := by
    refine ⟨rfl, rfl, ?_, ?_, ?_, ?_⟩ <;> dsimp only [initState] <;> omega
  have h := applyKeys_inv
    (fun st k hp => editorMoveCursor_preserves C R st k hp) keys (initState C R) hinit
  unfold InvCR at h
  exact ⟨h.2.2.1, h.2.2.2.1, h.2.2.2.2.1⟩

/-- C3, witnessed at columns 2, rows 2, keys MoveRight then MoveDown. -/
theorem cursor_stays_in_bounds_witness :
    ((1 : Int) ≤ 2 ∧ (1 : Int) ≤ 2) ∧
    (0 ≤ (applyKeys [EDITOR_KEY.ARROW_RIGHT, EDITOR_KEY.ARROW_DOWN]
        (initState 2 2)).cursorX ∧
      (applyKeys [EDITOR_KEY.ARROW_RIGHT, EDITOR_KEY.ARROW_DOWN]
        (initState 2 2)).cursorX ≤ 2 - 1 ∧
      0 ≤ (applyKeys [EDITOR_KEY.ARROW_RIGHT, EDITOR_KEY.ARROW_DOWN]
        (initState 2 2)).cursorY) :=
  ⟨⟨by decide, by decide⟩,
    cursor_stays_in_bounds 2 2 (by decide) (by decide)
      [EDITOR_KEY.ARROW_RIGHT, EDITOR_KEY.ARROW_DOWN]⟩

/-- C10: from (0,0) with rows = R ≥ 1, cursorY never exceeds R after any
movement sequence; a single step reaches cursorY = rows from a row
inside the viewport only via PageDown; and from cursorY = rows, MoveDown
leaves the row unchanged while MoveUp yields rows - 1. -/
theorem pageDown_only_row_overflow (C R : Int) (hR : 1 ≤ R)
    (keys : List String) (st : Editor) (k : String) :
    (applyKeys keys (initState C R)).cursorY ≤ R ∧
    (0 ≤ st.cursorY → st.cursorY < st.rows →
      (editorMoveCursor k st).cursorY = st.rows → k = EDITOR_KEY.PAGE_DOWN) ∧
    (1 ≤ st.rows → st.cursorY = st.rows →
      (editorMoveCursor EDITOR_KEY.ARROW_DOWN st).cursorY = st.rows ∧
      (editorMoveCursor EDITOR_KEY.ARROW_UP st).cursorY = st.rows - 1) := by
  refine ⟨?_, ?_, ?_⟩
  · have hinit : InvY R (initState C R) := by
      refine ⟨rfl, ?_, ?_⟩ <;> dsimp only [initState] <;> omega
    have h := applyKeys_inv
      (fun s k2 hp => editorMoveCursor_preservesY R s k2 hp) keys (initState C R) hinit
    unfold InvY at h
    exact h.2.2
  · intro hy0 hyR heq
    unfold editorMoveCursor at heq
    split_ifs at heq <;>
      first
        | assumption
        | (exfalso; (try dsimp only at heq); omega)
  · intro hr1 hyR
    have hd : editorMoveCursor EDITOR_KEY.ARROW_DOWN st
        = (if st.cursorY < st.rows - 1 then
            { st with cursorY := st.cursorY + 1 } else st) := rfl
    have hu : editorMoveCursor EDITOR_KEY.ARROW_UP st
        = (if 0 < st.cursorY then { st with cursorY := st.cursorY - 1 } else st) := rfl
    constructor
    · rw [hd]; split_ifs <;> ((try dsimp only); (try omega))
    · rw [hu]; split_ifs <;> ((try dsimp only); (try omega))

/-- C10, witnessed at columns 3, rows 2, one PageDown, with the single
step taken from the state (0,1) and k = PageDown. -/
theorem pageDown_only_row_overflow_witness :
    ((1 : Int) ≤ 2) ∧
    ((applyKeys [EDITOR_KEY.PAGE_DOWN] (initState 3 2)).cursorY ≤ 2 ∧
      (0 ≤ (⟨3, 2, 0, 1⟩ : Editor).cursorY →
        (⟨3, 2, 0, 1⟩ : Editor).cursorY < (⟨3, 2, 0, 1⟩ : Editor).rows →
        (editorMoveCursor EDITOR_KEY.PAGE_DOWN ⟨3, 2, 0, 1⟩).cursorY
          = (⟨3, 2, 0, 1⟩ : Editor).rows →
        EDITOR_KEY.PAGE_DOWN = EDITOR_KEY.PAGE_DOWN) ∧
      (1 ≤ (⟨3, 2, 0, 1⟩ : Editor).rows →
        (⟨3, 2, 0, 1⟩ : Editor).cursorY = (⟨3, 2, 0, 1⟩ : Editor).rows →
        (editorMoveCursor EDITOR_KEY.ARROW_DOWN ⟨3, 2, 0, 1⟩).cursorY
          = (⟨3, 2, 0, 1⟩ : Editor).rows ∧
        (editorMoveCursor EDITOR_KEY.ARROW_UP ⟨3, 2, 0, 1⟩).cursorY
          = (⟨3, 2, 0, 1⟩ : Editor).rows - 1)) :=
  ⟨by decide,
    pageDown_only_row_overflow 3 2 (by decide) [EDITOR_KEY.PAGE_DOWN]
      ⟨3, 2, 0, 1⟩ EDITOR_KEY.PAGE_DOWN⟩

/-- C9: applying a Home sequence twice yields the same state as applying
it once, and likewise for the End sequences and PageUp. (In this code
the Home and End sequences are not handled by #editorMoveCursor, so they
leave the state unchanged; PageUp sets cursorY to 0 idempotently.) -/
theorem home_end_pageUp_idempotent (st : Editor) :
    (editorMoveCursor "\x1B[H" (editorMoveCursor "\x1B[H" st)
      = editorMoveCursor "\x1B[H" st) ∧
    (editorMoveCursor "\x1B[1~" (editorMoveCursor "\x1B[1~" st)
      = editorMoveCursor "\x1B[1~" st) ∧
    (editorMoveCursor "\x1B[7~" (editorMoveCursor "\x1B[7~" st)
      = editorMoveCursor "\x1B[7~" st) ∧
    (editorMoveCursor "\x1BOH" (editorMoveCursor "\x1BOH" st)
      = editorMoveCursor "\x1BOH" st) ∧
    (editorMoveCursor "\x1B[4~" (editorMoveCursor "\x1B[4~" st)
      = editorMoveCursor "\x1B[4~" st) ∧
    (editorMoveCursor "\x1B[8~" (editorMoveCursor "\x1B[8~" st)
      = editorMoveCursor "\x1B[8~" st) ∧
    (editorMoveCursor "\x1B[F" (editorMoveCursor "\x1B[F" st)
      = editorMoveCursor "\x1B[F" st) ∧
    (editorMoveCursor "\x1BOF" (editorMoveCursor "\x1BOF" st)
      = editorMoveCursor "\x1BOF" st) ∧
    (editorMoveCursor EDITOR_KEY.PAGE_UP (editorMoveCursor EDITOR_KEY.PAGE_UP st)
      = editorMoveCursor EDITOR_KEY.PAGE_UP st) :=
  ⟨rfl, rfl, rfl, rfl, rfl, rfl, rfl, rfl, rfl⟩

/-- C4: the code does not decode ESC[H to Home — it is passed through as
`other` (the spec table says Home), and processing it leaves the cursor
unchanged at x = 3 instead of setting x = 0. -/
theorem home_sequence_ignored :
    codeLogicalKey "\x1B[H" = LogicalKey.other "\x1B[H" ∧
    decodeSpec "\x1B[H" = LogicalKey.home ∧
    LogicalKey.other "\x1B[H" ≠ LogicalKey.home ∧
    (processKeypress ⟨"\x1B[H", "", false, false, false⟩ midState).1.cursorX = 3 ∧
    ((3 : Int) ≠ 0) := by
  decide

/-- C4 (amended): each of the Home, End and Delete raw sequences is
absent from the code's decode table: it decodes to `other` carrying the
raw value, and processing it leaves the editor state unchanged. -/
theorem home_end_delete_no_effect (st : Editor) :
    (codeLogicalKey "\x1B[H" = LogicalKey.other "\x1B[H" ∧
      (processKeypress ⟨"\x1B[H", "", false, false, false⟩ st).1 = st) ∧
    (codeLogicalKey "\x1B[1~" = LogicalKey.other "\x1B[1~" ∧
      (processKeypress ⟨"\x1B[1~", "", false, false, false⟩ st).1 = st) ∧
    (codeLogicalKey "\x1B[7~" = LogicalKey.other "\x1B[7~" ∧
      (processKeypress ⟨"\x1B[7~", "", false, false, false⟩ st).1 = st) ∧
    (codeLogicalKey "\x1BOH" = LogicalKey.other "\x1BOH" ∧
      (processKeypress ⟨"\x1BOH", "", false, false, false⟩ st).1 = st) ∧
    (codeLogicalKey "\x1B[4~" = LogicalKey.other "\x1B[4~" ∧
      (processKeypress ⟨"\x1B[4~", "", false, false, false⟩ st).1 = st) ∧
    (codeLogicalKey "\x1B[8~" = LogicalKey.other "\x1B[8~" ∧
      (processKeypress ⟨"\x1B[8~", "", false, false, false⟩ st).1 = st) ∧
    (codeLogicalKey "\x1B[F" = LogicalKey.other "\x1B[F" ∧
      (processKeypress ⟨"\x1B[F", "", false, false, false⟩ st).1 = st) ∧
    (codeLogicalKey "\x1BOF" = LogicalKey.other "\x1BOF" ∧
      (processKeypress ⟨"\x1BOF", "", false, false, false⟩ st).1 = st) ∧
    (codeLogicalKey "\x1B[3~" = LogicalKey.other "\x1B[3~" ∧
      (processKeypress ⟨"\x1B[3~", "", false, false, false⟩ st).1 = st) :=
  ⟨⟨rfl, rfl⟩, ⟨rfl, rfl⟩, ⟨rfl, rfl⟩, ⟨rfl, rfl⟩, ⟨rfl, rfl⟩,
    ⟨rfl, rfl⟩, ⟨rfl, rfl⟩, ⟨rfl, rfl⟩, ⟨rfl, rfl⟩⟩

/-- C7: ESC[3~ is in the spec's decode table as Delete, but the code
treats it exactly like an unlisted sequence: it decodes to `other`
carrying the raw value, which is not the documented logical key. -/
theorem delete_decoded_as_other :
    decodeSpec "\x1B[3~" = LogicalKey.delete ∧
    codeLogicalKey "\x1B[3~" = LogicalKey.other "\x1B[3~" ∧
    LogicalKey.other "\x1B[3~" ≠ LogicalKey.delete := by
  decide

/-- C7 (amended): decoding is total and deterministic; the arrow, wasd,
PageUp/PageDown and Quit rows of the table map to their documented
logical keys, and every sequence outside those rows — including the
spec's Home, End and Delete rows — decodes to `other` carrying the
original raw value unchanged. -/
theorem decode_total_and_table (s : String) (h : s ∉ handledSeqs) :
    codeLogicalKey "\x1B[A" = LogicalKey.moveUp ∧
    codeLogicalKey "\x1B[B" = LogicalKey.moveDown ∧
    codeLogicalKey "\x1B[C" = LogicalKey.moveRight ∧
    codeLogicalKey "\x1B[D" = LogicalKey.moveLeft ∧
    codeLogicalKey "w" = LogicalKey.moveUp ∧
    codeLogicalKey "s" = LogicalKey.moveDown ∧
    codeLogicalKey "a" = LogicalKey.moveLeft ∧
    codeLogicalKey "d" = LogicalKey.moveRight ∧
    codeLogicalKey "\x1B[5~" = LogicalKey.pageUp ∧
    codeLogicalKey "\x1B[6~" = LogicalKey.pageDown ∧
    codeLogicalKey "\x11" = LogicalKey.quit ∧
    codeLogicalKey s = LogicalKey.other s := by
  simp only [handledSeqs, List.mem_cons, List.not_mem_nil, or_false, not_or] at h
  obtain ⟨h1, h2, h3, h4, h5, h6, h7, h8, h9, h10, h11⟩ := h
  refine ⟨by decide, by decide, by decide, by decide, by decide, by decide,
    by decide, by decide, by decide, by decide, by decide, ?_⟩
  simp [codeLogicalKey, readKey, EDITOR_KEY.ARROW_UP, EDITOR_KEY.ARROW_DOWN,
    EDITOR_KEY.ARROW_LEFT, EDITOR_KEY.ARROW_RIGHT, EDITOR_KEY.PAGE_UP,
    EDITOR_KEY.PAGE_DOWN, h1, h2, h3, h4, h5, h6, h7, h8, h9, h10, h11]

/-- C7 amended, witnessed at the unlisted sequence "z". -/
theorem decode_total_and_table_witness :
    ("z" ∉ handledSeqs) ∧
    (codeLogicalKey "\x1B[A" = LogicalKey.moveUp ∧
      codeLogicalKey "\x1B[B" = LogicalKey.moveDown ∧
      codeLogicalKey "\x1B[C" = LogicalKey.moveRight ∧
      codeLogicalKey "\x1B[D" = LogicalKey.moveLeft ∧
      codeLogicalKey "w" = LogicalKey.moveUp ∧
      codeLogicalKey "s" = LogicalKey.moveDown ∧
      codeLogicalKey "a" = LogicalKey.moveLeft ∧
      codeLogicalKey "d" = LogicalKey.moveRight ∧
      codeLogicalKey "\x1B[5~" = LogicalKey.pageUp ∧
      codeLogicalKey "\x1B[6~" = LogicalKey.pageDown ∧
      codeLogicalKey "\x11" = LogicalKey.quit ∧
      codeLogicalKey "z" = LogicalKey.other "z") :=
  ⟨by decide, decode_total_and_table "z" (by decide)⟩

/-- C6: on the quit path the trace is exactly one final write and exit
code 0 — no raw-mode restore effect ever appears, contradicting the
claim that raw mode is restored before termination. -/
theorem quit_does_not_restore_raw_mode :
    (processKeypress quitEvent tinyState).2
      = [Effect.write (refreshScreenFrame tinyState), Effect.exit 0] ∧
    Effect.setRawMode false ∉ (processKeypress quitEvent tinyState).2 ∧
    Effect.setRawMode true ∉ (processKeypress quitEvent tinyState).2 := by
  refine ⟨rfl, ?_, ?_⟩ <;> decide

/-- C6 (amended): processing any event carrying 0x11 produces exactly
one final render (a single write of the composed frame) and exits with
code 0; raw mode is not restored — the code has no restore path. -/
theorem quit_renders_once_exits_zero (ev : KeyEvent) (st : Editor)
    (h : ev.sequence = "\x11") :
    processKeypress ev st
      = (st, [Effect.write (refreshScreenFrame st), Effect.exit 0]) ∧
    ((processKeypress ev st).2.countP (fun e => isWrite e) = 1) ∧
    Effect.setRawMode false ∉ (processKeypress ev st).2 := by
  have hpk : processKeypress ev st
      = (st, [Effect.write (refreshScreenFrame st), Effect.exit 0]) := by
    simp [processKeypress, readKey, h, dieEffects, refreshScreenEffects]
  refine ⟨hpk, ?_, ?_⟩
  · rw [hpk]; rfl
  · rw [hpk]; simp

/-- C6 amended, witnessed on the quit event against the 1x1 session. -/
theorem quit_renders_once_exits_zero_witness :
    (quitEvent.sequence = "\x11") ∧
    (processKeypress quitEvent tinyState
        = (tinyState, [Effect.write (refreshScreenFrame tinyState), Effect.exit 0]) ∧
      ((processKeypress quitEvent tinyState).2.countP (fun e => isWrite e) = 1) ∧
      Effect.setRawMode false ∉ (processKeypress quitEvent tinyState).2) :=
  ⟨rfl, quit_renders_once_exits_zero quitEvent tinyState rfl⟩

/-- C2: evaluating the composed frame of a 1x1 empty session shows the
hide-cursor and move-to-top-left sequences appearing twice at the start
(then the banner row, the 1-based cursor-position sequence once and
show-cursor once): `#refreshScreen` passes its accumulator into
`#drawRows` and appends the returned value, which already contains that
prefix. The second conjunct shows the frame is not the single-prefix
buffer the render algorithm describes. -/
theorem refreshScreen_duplicates_prefix :
    refreshScreenFrame tinyState
      = "\x1b[?25l" ++ "\x1b[H" ++ "\x1b[?25l" ++ "\x1b[H" ++ welcomeMsg
        ++ "\x1b[K" ++ "\x1b[1;1H" ++ "\x1b[?25h" ∧
    refreshScreenFrame tinyState
      ≠ "\x1b[?25l" ++ "\x1b[H" ++ welcomeMsg ++ "\x1b[K" ++ "\x1b[1;1H" ++ "\x1b[?25h" := by
  refine ⟨?_, ?_⟩ <;> decide

lemma spacesAux_length (n : Nat) : (spacesAux n).length = (n + 1) / 2 := by
  induction n using Nat.strong_induction_on with
  | _ n ih =>
      match n with
      | 0 => decide
      | 1 => decide
      | (m + 2) =>
          have hm := ih m (by omega)
          have h1 : (" " : String).length = 1 := rfl
          show (" " ++ spacesAux m).length = (m + 2 + 1) / 2
          rw [String.length_append, hm, h1]
          omega

/-- C5 (amended): for rows ≥ 1 the banner appears on exactly the row
with index floor(rows/3) — a valid row index, every other visible row
being a tilde. When padding = (columns - 38)/2 > 0 the banner row is one
filler tilde, then spaces, then the banner text, and for integer padding
p ≥ 1 (columns - 38 = 2p) the space count is p - 1. When padding ≤ 0 the
row is the bare banner text with no padding. The banner text is never
truncated, so the row is wider than the viewport when columns < 38. -/
theorem banner_row_layout (st : Editor) (y : Nat) (p : Int)
    (hR : 1 ≤ st.rows) (hy : (y : Int) < st.rows) :
    st.rows / 3 < st.rows ∧
    ((y : Int) ≠ st.rows / 3 → rowText st y = "~") ∧
    ((y : Int) = st.rows / 3 → rowText st y = bannerStr st) ∧
    (0 < st.columns - (welcomeMsg.length : Int) →
      bannerStr st
        = "~" ++ spacesLoop (st.columns - (welcomeMsg.length : Int) - 2) ++ welcomeMsg) ∧
    (st.columns - (welcomeMsg.length : Int) = 2 * p → 1 ≤ p →
      (spacesLoop (st.columns - (welcomeMsg.length : Int) - 2)).length = (p - 1).toNat) ∧
    (st.columns - (welcomeMsg.length : Int) ≤ 0 → bannerStr st = welcomeMsg) := by
  refine ⟨?_, ?_, ?_, ?_, ?_, ?_⟩
  · omega
  · intro hne
    unfold rowText
    rw [if_neg hne]
  · intro heq
    unfold rowText
    rw [if_pos heq]
  · intro hp
    simp only [bannerStr]
    rw [if_pos hp]
  · intro h2p hp1
    unfold spacesLoop
    rw [spacesAux_length]
    omega
  · intro hle
    simp only [bannerStr]
    rw [if_neg (by omega)]
    have h0 : (st.columns - (welcomeMsg.length : Int)).toNat = 0 := by omega
    simp [spacesLoop, h0, spacesAux]

/-- C5 amended, witnessed at columns 80, rows 9 (banner on row index 3,
padding 21, so one tilde and 20 spaces before the banner text). -/
theorem banner_row_layout_witness :
    ((1 : Int) ≤ (⟨80, 9, 0, 0⟩ : Editor).rows ∧
      ((3 : Nat) : Int) < (⟨80, 9, 0, 0⟩ : Editor).rows) ∧
    ((⟨80, 9, 0, 0⟩ : Editor).rows / 3 < (⟨80, 9, 0, 0⟩ : Editor).rows ∧
      (((3 : Nat) : Int) ≠ (⟨80, 9, 0, 0⟩ : Editor).rows / 3 →
        rowText ⟨80, 9, 0, 0⟩ 3 = "~") ∧
      (((3 : Nat) : Int) = (⟨80, 9, 0, 0⟩ : Editor).rows / 3 →
        rowText ⟨80, 9, 0, 0⟩ 3 = bannerStr ⟨80, 9, 0, 0⟩) ∧
      (0 < (⟨80, 9, 0, 0⟩ : Editor).columns - (welcomeMsg.length : Int) →
        bannerStr ⟨80, 9, 0, 0⟩
          = "~" ++ spacesLoop ((⟨80, 9, 0, 0⟩ : Editor).columns
              - (welcomeMsg.length : Int) - 2) ++ welcomeMsg) ∧
      ((⟨80, 9, 0, 0⟩ : Editor).columns - (welcomeMsg.length : Int) = 2 * 21 →
        1 ≤ (21 : Int) →
        (spacesLoop ((⟨80, 9, 0, 0⟩ : Editor).columns
            - (welcomeMsg.length : Int) - 2)).length = ((21 : Int) - 1).toNat) ∧
      ((⟨80, 9, 0, 0⟩ : Editor).columns - (welcomeMsg.length : Int) ≤ 0 →
        bannerStr ⟨80, 9, 0, 0⟩ = welcomeMsg)) :=
  ⟨⟨by decide, by decide⟩,
    banner_row_layout ⟨80, 9, 0, 0⟩ 3 21 (by decide) (by decide)⟩

/-- C5: with columns = 10 and rows = 3 the banner row (index 1) carries
the untruncated 38-character welcome message: the code never truncates
the banner, so the row extends past the viewport width. -/
theorem banner_overflows_viewport :
    rowText narrowState 1 = welcomeMsg ∧
    welcomeMsg.length = 38 ∧
    ¬((welcomeMsg.length : Int) ≤ narrowState.columns) := by
  refine ⟨?_, ?_, ?_⟩ <;> decide

/-- C8 (spec-modelled): for any viewport row y < rows with
y < len(LineBuffer), the renderer emits the content line at index y
as-is; and when a file path argument is present, the startup buffer is
exactly the first line the collaborator produced (at most one line,
never the whole file). -/
theorem content_line_and_first_line_load (lines : List String) (st : Editor)
    (y : Nat) (path : String) (produced : List String)
    (hy : (y : Int) < st.rows) (hl : y < lines.length) :
    rowTextWithLines lines st y = lines.get ⟨y, hl⟩ ∧
    initLineBuffer (some path) produced = produced.take 1 ∧
    (initLineBuffer (some path) produced).length ≤ 1 := by
  refine ⟨?_, rfl, ?_⟩
  · unfold rowTextWithLines
    rw [dif_pos hl]
  · cases produced <;> simp [initLineBuffer]

/-- C8, witnessed with the one-line buffer ["hello"] on an 80x24 session
and a two-line file of which only the first line is loaded. -/
theorem content_line_and_first_line_load_witness :
    (((0 : Nat) : Int) < (⟨80, 24, 0, 0⟩ : Editor).rows ∧
      (0 : Nat) < (["hello"] : List String).length) ∧
    (rowTextWithLines ["hello"] ⟨80, 24, 0, 0⟩ 0
        = (["hello"] : List String).get ⟨0, by decide⟩ ∧
      initLineBuffer (some "f") ["a", "b"] = (["a", "b"] : List String).take 1 ∧
      (initLineBuffer (some "f") ["a", "b"]).length ≤ 1) :=
  ⟨⟨by decide, by decide⟩,
    content_line_and_first_line_load ["hello"] ⟨80, 24, 0, 0⟩ 0 "f" ["a", "b"]
      (by decide) (by decide)⟩
